import Mathlib

/-!
Shallow embedding of the RealFi community-finance core:
the finance ledger route (`src/unnamed/part_005`, the `POST`/`GET` handlers over
`userBalances` and `transactions`), the governance route (`src/unnamed/part_007`,
the handlers over `proposals`, `votes` and `communityGoals`), and the dashboard
aggregator (`src/src/lib/integrations/index.ts`, `IntegrationManager`).

Monetary amounts are embedded as rationals (`ℚ`): every literal the handlers use
is a decimal fraction, and the properties at stake are comparisons and exact
arithmetic on such fractions.  JavaScript `Map.get`/`Map.set` pairs are embedded
as first-match lookup in an association list to which `set` prepends; this has
the same `get`-after-`set` behaviour as the source maps (claims never depend on
iteration order).  Timestamps (`Date.now()`, ISO strings) are embedded as natural
numbers counting milliseconds.
-/

namespace RealFi

/-! ### Finance ledger (`src/unnamed/part_005`)

The `userBalances` map stores per-user records `{gBalance, usdBalance, savings,
...}`; the `claim-ubi` case also stores `lastClaim`.  The transaction log only
receives append-only records that no claim inspects, so it is not carried here.
-/

/-- A value of the `userBalances` map of the finance route: `gBalance` is the
spendable balance, `savings` the savings principal, `lastClaim` the timestamp
written by the `claim-ubi` case (absent until the first claim).  The
`walletAddress` field is an opaque string the claims never read and is omitted. -/
structure UserBalance where
  gBalance : ℚ
  usdBalance : ℚ
  savings : ℚ
  lastClaim : Option ℕ
deriving DecidableEq

/-- The zero record `{ gBalance: 0, usdBalance: 0, savings: 0 }` the handlers
substitute for a missing `userBalances` entry. -/
def emptyBalance : UserBalance := { gBalance := 0, usdBalance := 0, savings := 0, lastClaim := none }

/-- The typed validation failures of the finance route (spec section 7; the
route reports them as `success:false` JSON bodies). -/
inductive FinanceError where
  | InsufficientFunds
deriving DecidableEq

/-- `const ubiAmount = 10` — the fixed daily income of the `claim-ubi` case. -/
def ubiAmount : ℚ := 10

/-- The `claim-ubi` case of the finance `POST` handler: reads the user's record
(defaulting to the zero record), unconditionally credits `ubiAmount` to
`gBalance` and stamps `lastClaim := now`.  The source performs no cooldown
check: `lastClaim` is written here but never read by any handler. -/
def claimUbi (acct : Option UserBalance) (now : ℕ) : UserBalance :=
  let a := acct.getD emptyBalance
  { a with gBalance := a.gBalance + ubiAmount, lastClaim := some now }

/-- The payment fee rate: `const fee = amount * 0.005` (0.5%). -/
def feeRate : ℚ := 5 / 1000

/-- The `send-payment` case of the finance `POST` handler: fails when the user
record is absent or `senderBalance.gBalance < amount`; otherwise debits
`amount + amount * feeRate` from `gBalance`.  The recipient, currency and the
generated payment link only flow into the transaction record and the response
message and are not modelled.  On failure the handler returns before any
`userBalances.set`, so the stored record is unchanged. -/
def sendPayment (acct : Option UserBalance) (amount : ℚ) : Except FinanceError UserBalance :=
  match acct with
  | none => .error .InsufficientFunds
  | some a =>
    if a.gBalance < amount then
      .error .InsufficientFunds
    else
      let fee := amount * feeRate
      .ok { a with gBalance := a.gBalance - (amount + fee) }

/-- The `deposit-savings` case of the finance `POST` handler: fails when the
user record is absent or `currentBalance.gBalance < depositAmount`; otherwise
moves `depositAmount` from `gBalance` to `savings`. -/
def depositSavings (acct : Option UserBalance) (depositAmount : ℚ) : Except FinanceError UserBalance :=
  match acct with
  | none => .error .InsufficientFunds
  | some a =>
    if a.gBalance < depositAmount then
      .error .InsufficientFunds
    else
      .ok { a with gBalance := a.gBalance - depositAmount, savings := a.savings + depositAmount }

/-- The body of the `get-balance` case of the finance `GET` handler. -/
structure BalanceView where
  gBalance : ℚ
  usdBalance : ℚ
  savings : ℚ
  gUSDValue : ℚ
  savingsUSDValue : ℚ
  projectedAnnualReturn : ℚ
deriving DecidableEq

/-- The `get-balance` case of the finance `GET` handler: a pure read that
defaults a missing record to zero and derives `gUSDValue = gBalance * 0.01`,
`savingsUSDValue = savings * 0.01` and `projectedAnnualReturn = savings * 0.05`. -/
def getBalance (acct : Option UserBalance) : BalanceView :=
  let a := acct.getD emptyBalance
  { gBalance := a.gBalance, usdBalance := a.usdBalance, savings := a.savings,
    gUSDValue := a.gBalance * (1 / 100),
    savingsUSDValue := a.savings * (1 / 100),
    projectedAnnualReturn := a.savings * (5 / 100) }

/-! ### Governance engine (`src/unnamed/part_007`) -/

/-- A vote choice; the source passes it as the string `voteType` and uses it to
index the proposal's `votes` record `{for, against, abstain}`. -/
inductive VoteChoice where
  | voteFor
  | voteAgainst
  | voteAbstain
deriving DecidableEq

/-- The `votes` record of a proposal: the three tally counters. -/
structure Tally where
  forCount : ℕ
  againstCount : ℕ
  abstainCount : ℕ
deriving DecidableEq

/-- `existingProposal.votes[voteType]++` — increment the counter selected by the
choice, leaving the other two unchanged. -/
def Tally.bump (t : Tally) : VoteChoice → Tally
  | .voteFor => { t with forCount := t.forCount + 1 }
  | .voteAgainst => { t with againstCount := t.againstCount + 1 }
  | .voteAbstain => { t with abstainCount := t.abstainCount + 1 }

/-- `status` field of a proposal: `'active'` at creation, set to `'executed'` by
`execute-proposal`. -/
inductive ProposalStatus where
  | active
  | executed
deriving DecidableEq

/-- A value of the `proposals` map.  `title`/`description`/`category`/`author`/
`createdAt`/`budget` are opaque payload the claims never read and are omitted;
the behavioural fields are kept. -/
structure Proposal where
  status : ProposalStatus
  votingDeadline : ℕ
  tally : Tally
  quorum : ℕ
  executedAt : Option ℕ
deriving DecidableEq

/-- A value of the `votes` map, as built by the `vote` case. -/
structure Vote where
  proposalId : String
  userId : String
  choice : VoteChoice
  reason : String
deriving DecidableEq

/-- A value of the `communityGoals` map (behavioural fields; `title`,
`description`, `deadline`, `category` are opaque payload). -/
structure Goal where
  targetAmount : ℚ
  currentAmount : ℚ
  contributors : ℕ
deriving DecidableEq

/-- The process-wide governance state: the `proposals` map (keyed by proposal
id) and the `votes` map (keyed by the `` `${propId}_${userId}` `` string). -/
structure GovState where
  proposals : List (String × Proposal)
  votes : List (String × Vote)
deriving DecidableEq

/-- The typed validation failures of the governance route (spec section 7). -/
inductive GovError where
  | ProposalNotFound
  | AlreadyVoted
  | VotingClosed
  | QuorumNotMet
  | GoalNotFound
deriving DecidableEq

/-- `Map.set k v`: prepend the pair; first-match `List.lookup` then observes the
new value, exactly as `Map.get` after `Map.set`. -/
def setEntry (k : String) (v : α) (l : List (String × α)) : List (String × α) :=
  (k, v) :: l

/-- The `` `${propId}_${userId}` `` key of the `votes` map. -/
def voteKey (propId userId : String) : String :=
  propId ++ "_" ++ userId

/-- The `vote` case of the governance `POST` handler, checks in source order:
`proposals.has` (else proposal not found), `votes.has(key)` (else already
voted), `new Date() > votingDeadline` (else voting closed); then records the
vote and bumps the selected tally counter of the proposal. -/
def castVote (s : GovState) (propId userId : String) (choice : VoteChoice) (reason : String)
    (now : ℕ) : Except GovError (GovState × Vote) :=
  match List.lookup propId s.proposals with
  | none => .error .ProposalNotFound
  | some prop =>
    if (List.lookup (voteKey propId userId) s.votes).isSome then
      .error .AlreadyVoted
    else if prop.votingDeadline < now then
      .error .VotingClosed
    else
      let v : Vote := { proposalId := propId, userId := userId, choice := choice, reason := reason }
      let prop' := { prop with tally := prop.tally.bump choice }
      .ok ({ proposals := setEntry propId prop' s.proposals,
             votes := setEntry (voteKey propId userId) v s.votes }, v)

/-- The `execute-proposal` case of the governance `POST` handler: fails when the
proposal is absent; computes `totalVotes = for + against + abstain` and
`passed = totalVotes >= quorum && for > against`; when not passed fails
(`'Proposal did not pass voting requirements'`, the spec's `QuorumNotMet`);
otherwise sets `status := executed`, stamps `executedAt := now` and stores the
updated proposal.  Note the source never checks whether the proposal is already
executed, nor does the `vote` case consult `status`. -/
def executeProposal (s : GovState) (propId : String) (now : ℕ) :
    Except GovError (GovState × Proposal) :=
  match List.lookup propId s.proposals with
  | none => .error .ProposalNotFound
  | some prop =>
    if prop.quorum ≤ prop.tally.forCount + prop.tally.againstCount + prop.tally.abstainCount
        ∧ prop.tally.againstCount < prop.tally.forCount then
      let prop' := { prop with status := .executed, executedAt := some now }
      .ok ({ s with proposals := setEntry propId prop' s.proposals }, prop')
    else
      .error .QuorumNotMet

/-- The `contribute-to-goal` case of the governance `POST` handler: fails when
the goal is absent; otherwise adds `amount` to `currentAmount`, adds one to
`contributors`, stores the goal and answers with the updated goal and
`percentageFunded = currentAmount / targetAmount * 100` computed from the
updated goal (the handler formats it with `toFixed(1)` purely for display; the
value itself is unclamped). -/
def contributeToGoal (goals : List (String × Goal)) (goalId : String) (amount : ℚ) :
    Except GovError (List (String × Goal) × Goal × ℚ) :=
  match List.lookup goalId goals with
  | none => .error .GoalNotFound
  | some g =>
    let g' := { g with currentAmount := g.currentAmount + amount,
                       contributors := g.contributors + 1 }
    .ok (setEntry goalId g' goals, g', g'.currentAmount / g'.targetAmount * 100)

/-- Iterated `contribute-to-goal`: one handler call per element of `amounts`,
threading the `communityGoals` map, as a client issuing N contributions would. -/
def contributeMany (goals : List (String × Goal)) (goalId : String) :
    List ℚ → Except GovError (List (String × Goal))
  | [] => .ok goals
  | a :: rest =>
    match contributeToGoal goals goalId a with
    | .error e => .error e
    | .ok (gs, _, _) => contributeMany gs goalId rest

/-! ### Governance statistics read (`src/unnamed/part_007`, `GET` handler)

All cases of the `GET` handler's `switch` share one block scope.  The binding
`const userVotes = ...` is declared inside the `'get-user-votes'` case, so when
the `'get-governance-stats'` case runs, `userVotes` is declared in that scope
but uninitialized (its declaration statement has not executed), and reading it
throws a `ReferenceError` (temporal dead zone).  The surrounding `try`/`catch`
turns the thrown error into the `{success: false, error: 'Internal server
error'}` response with HTTP status 500.
-/

/-- A runtime error thrown by the embedded JavaScript handlers, or the rejection
of an awaited promise. -/
inductive JsError where
  | referenceError
  | rejected
deriving DecidableEq

/-- The evaluation of the identifier `userVotes` inside the
`'get-governance-stats'` case: the binding is in the temporal dead zone there,
so the read throws a `ReferenceError` instead of producing a vote list. -/
def userVotesInStatsCase : Except JsError (List Vote) :=
  .error .referenceError

/-- The response of the `'get-governance-stats'` case: either the statistics
body, or the `catch`-produced failure response (HTTP status code and error
message). -/
inductive GovStatsResult where
  | stats (totalProposals activeProposals executedProposals : ℕ) (participationRate : ℚ)
  | failure (statusCode : ℕ) (errorMsg : String)
deriving DecidableEq

/-- The `'get-governance-stats'` case of the governance `GET` handler: counts
all/active/executed proposals, then builds the response body whose
`participationRate` field reads `userVotes` (throwing, see
`userVotesInStatsCase`); the handler's `catch` maps any thrown error to the
500 `'Internal server error'` response. -/
def getGovernanceStats (s : GovState) : GovStatsResult :=
  let allProposals := s.proposals.map Prod.snd
  let activeProposals := allProposals.filter (fun p => p.status = .active)
  let executedProposals := allProposals.filter (fun p => p.status = .executed)
  let body : Except JsError GovStatsResult := do
    let userVotes ← userVotesInStatsCase
    pure (.stats allProposals.length activeProposals.length executedProposals.length
      (if 0 < userVotes.length then
        ((userVotes.length : ℚ) / ((allProposals.length : ℚ) * 10)) * 100
      else 0))
  match body with
  | .ok r => r
  | .error _ => .failure 500 "Internal server error"

/-! ### Dashboard aggregator (`src/src/lib/integrations/index.ts`)

`IntegrationManager.getDashboardData` awaits `Promise.all` over seven
collaborator statistics calls and then directly awaits two more.  Each
collaborator call is a promise that either fulfils with a key/value statistics
summary or rejects; the aggregator is embedded as a function of those nine
outcomes, with `Except` bind playing the role of `await`: awaiting a rejected
promise (and `Promise.all` over a batch containing one) propagates the
rejection, which nothing in `getDashboardData` catches.
-/

/-- A collaborator statistics summary: the spec's "key/value numeric+string
summary", embedded as key/value pairs over ℚ. -/
abbrev Stats := List (String × ℚ)

/-- The object literal `getDashboardData` returns: five sections holding the
nine collaborator summaries. -/
structure DashboardData where
  identityHuman : Stats
  identityLogos : Stats
  identityBento : Stats
  financeGoodDollar : Stats
  privacyNillion : Stats
  privacyTor : Stats
  infraEdgeCity : Stats
  infraInternetArchive : Stats
  reputationNumbers : Stats
deriving DecidableEq

/-- `IntegrationManager.getDashboardData`, as a function of the outcomes of the
nine collaborator calls (in source order: humanProtocol.getVerificationStats,
goodDollar.getUBIStats, nillion.getNetworkStats, torProject.getNetworkStats,
edgeCity.getNetworkMetrics, logos.getNetworkStats, bento.getNetworkStats inside
`Promise.all`, then internetArchive.getNetworkStats and
numbersProtocol.getNetworkStats awaited directly). -/
def getDashboardData (human goodD nillion tor edge logos bento archive numbers :
    Except JsError Stats) : Except JsError DashboardData := do
  let h ← human
  let g ← goodD
  let n ← nillion
  let t ← tor
  let e ← edge
  let l ← logos
  let b ← bento
  let ia ← archive
  let np ← numbers
  pure { identityHuman := h, identityLogos := l, identityBento := b,
         financeGoodDollar := g, privacyNillion := n, privacyTor := t,
         infraEdgeCity := e, infraInternetArchive := ia, reputationNumbers := np }

/-- The shared shape of every collaborator statistics method (e.g.
`NillionSDK.getNetworkStats`, `TorSDK.getNetworkStats`,
`BentoSDK.getNetworkStats`, `GoodDollarSDK.getUBIStats`, ...): try the
underlying mock network call and, if it throws, return the method's hard-coded
default summary.  The fulfilled value of such a method is therefore always a
summary; its promise never rejects. -/
def statsWithCatch (underlying : Except JsError Stats) (defaults : Stats) : Stats :=
  match underlying with
  | .ok s => s
  | .error _ => defaults

/-- The hard-coded default summary of `NillionSDK.getNetworkStats`
(`src/unnamed/part_009`), used as a concrete collaborator summary below. -/
def nillionDefaultStats : Stats :=
  [("totalStorage", 1250000000), ("activeComputations", 42),
   ("privacyScore", 98 / 100), ("networkNodes", 127)]

/-! ### Decidability of `Except` results -/

instance {ε α : Type} [DecidableEq ε] [DecidableEq α] : DecidableEq (Except ε α) := fun x y =>
  match x, y with
  | .ok a, .ok b => if h : a = b then .isTrue (by rw [h]) else .isFalse (by simp [h])
  | .error a, .error b => if h : a = b then .isTrue (by rw [h]) else .isFalse (by simp [h])
  | .ok _, .error _ => .isFalse (by simp)
  | .error _, .ok _ => .isFalse (by simp)

/-! ### Concrete scenario states

Closed states used by the evaluation theorems and witnesses below.  States with
a `1`/`2`/`15` suffix are the exact values the handlers produce from the
unsuffixed ones (checked by `decide` in the theorems that use them).
-/

/-- A user record holding exactly 10 units of spendable balance. -/
def tenBalance : UserBalance := { gBalance := 10, usdBalance := 0, savings := 0, lastClaim := none }

/-- An active proposal in mid voting window with no votes yet. -/
def voteDemoProposal : Proposal :=
  { status := .active, votingDeadline := 1000,
    tally := { forCount := 0, againstCount := 0, abstainCount := 0 },
    quorum := 3, executedAt := none }

/-- Governance state holding only `voteDemoProposal` under key `"p"`. -/
def voteDemoState : GovState := { proposals := [("p", voteDemoProposal)], votes := [] }

/-- The vote record the `vote` case builds for user `"u"` on proposal `"p"`. -/
def voteDemoVote : Vote := { proposalId := "p", userId := "u", choice := .voteFor, reason := "" }

/-- `voteDemoProposal` after one `for` vote. -/
def voteDemoProposal1 : Proposal :=
  { voteDemoProposal with tally := { forCount := 1, againstCount := 0, abstainCount := 0 } }

/-- `voteDemoState` after user `"u"` voted `for` on `"p"`. -/
def voteDemoState1 : GovState :=
  { proposals := [("p", voteDemoProposal1), ("p", voteDemoProposal)],
    votes := [("p_u", voteDemoVote)] }

/-- An active proposal that already passes its quorum (4 total votes ≥ quorum 4,
3 for > 1 against) while its voting deadline (1000) is still ahead. -/
def execDemoProposal : Proposal :=
  { status := .active, votingDeadline := 1000,
    tally := { forCount := 3, againstCount := 1, abstainCount := 0 },
    quorum := 4, executedAt := none }

/-- Governance state holding only `execDemoProposal` under key `"pex"`. -/
def execDemoState : GovState := { proposals := [("pex", execDemoProposal)], votes := [] }

/-- `execDemoProposal` as stored by `execute-proposal` at time 10. -/
def execDemoExecuted : Proposal :=
  { execDemoProposal with status := .executed, executedAt := some 10 }

/-- `execDemoState` after `execute-proposal` ran at time 10. -/
def execDemoState1 : GovState :=
  { proposals := [("pex", execDemoExecuted), ("pex", execDemoProposal)], votes := [] }

/-- The vote record of user `"frank"`, cast after the proposal was executed. -/
def execDemoVote : Vote := { proposalId := "pex", userId := "frank", choice := .voteFor, reason := "" }

/-- `execDemoExecuted` after the post-execution vote of `"frank"`. -/
def execDemoAfterVote : Proposal :=
  { execDemoExecuted with tally := { forCount := 4, againstCount := 1, abstainCount := 0 } }

/-- `execDemoState1` after the post-execution vote of `"frank"` at time 20. -/
def execDemoState2 : GovState :=
  { proposals := [("pex", execDemoAfterVote), ("pex", execDemoExecuted), ("pex", execDemoProposal)],
    votes := [("pex_frank", execDemoVote)] }

/-- A proposal with `quorum = 15` and 14 votes in total (7 for, 4 against,
3 abstain), mid voting window. -/
def quorumDemoProposal : Proposal :=
  { status := .active, votingDeadline := 1000,
    tally := { forCount := 7, againstCount := 4, abstainCount := 3 },
    quorum := 15, executedAt := none }

/-- Governance state holding only `quorumDemoProposal` under key `"q"`. -/
def quorumDemoState : GovState := { proposals := [("q", quorumDemoProposal)], votes := [] }

/-- The 15th vote: user `"u15"` votes `for`. -/
def quorumDemoVote15 : Vote := { proposalId := "q", userId := "u15", choice := .voteFor, reason := "" }

/-- `quorumDemoProposal` after the 15th `for` vote (8 for, 4 against, 3 abstain). -/
def quorumDemoProposal15 : Proposal :=
  { quorumDemoProposal with tally := { forCount := 8, againstCount := 4, abstainCount := 3 } }

/-- `quorumDemoState` after the 15th vote was cast. -/
def quorumDemoState15 : GovState :=
  { proposals := [("q", quorumDemoProposal15), ("q", quorumDemoProposal)],
    votes := [("q_u15", quorumDemoVote15)] }

/-- The seeded `communityGoals` entry `'solar-project'` (behavioural fields). -/
def solarGoal : Goal := { targetAmount := 50000, currentAmount := 37500, contributors := 45 }

/-- The seeded `communityGoals` entry `'food-coop'` (behavioural fields). -/
def foodCoopGoal : Goal := { targetAmount := 25000, currentAmount := 15000, contributors := 32 }

/-- The seeded `communityGoals` entry `'education-fund'` (behavioural fields). -/
def educationGoal : Goal := { targetAmount := 15000, currentAmount := 13500, contributors := 28 }

/-- The `communityGoals` map as seeded at module load of `src/unnamed/part_007`. -/
def communityGoalsInit : List (String × Goal) :=
  [("solar-project", solarGoal), ("food-coop", foodCoopGoal), ("education-fund", educationGoal)]

/-! ## Theorems -/

/-- `Map.get k` after `Map.set k v` observes `v`. -/
theorem lookup_setEntry_self (k : String) (v : α) (l : List (String × α)) :
    List.lookup k (setEntry k v l) = some v := by
  simp [setEntry, List.lookup]

/-- C1: the claimed ledger invariant `spendableBalance >= 0` is violated by the
code.  From the empty ledger, one `claim-ubi` call leaves a spendable balance of
exactly 10; `send-payment` of amount 10 then passes the balance check
(`gBalance < amount` is false) but debits `amount + fee = 10.05`, leaving
`gBalance = -0.05 < 0`.  The `send-payment` case checks the amount without the
fee yet debits the fee, so a successful payment can leave the spendable balance
negative. -/
theorem sendPayment_breaks_balance_nonnegativity :
    claimUbi none 0 = { gBalance := 10, usdBalance := 0, savings := 0, lastClaim := some 0 } ∧
    sendPayment (some { gBalance := 10, usdBalance := 0, savings := 0, lastClaim := some 0 }) 10 = .ok { gBalance := -1/20, usdBalance := 0, savings := 0, lastClaim := some 0 } ∧
    (-1/20 : ℚ) < 0 := by
  refine ⟨?_, ?_, by norm_num⟩
  · norm_num [claimUbi, emptyBalance, ubiAmount]
  · norm_num [sendPayment, feeRate]

/-- C2: the claimed failure condition of `sendPayment` does not match the code.
With `spendableBalance = 100.50` the payment of 100 succeeds and leaves exactly
0, as claimed; but with `spendableBalance = 100.49` the code also succeeds
(its check is `gBalance < amount`, ignoring the fee) and leaves `-0.01`,
whereas the claim requires an `InsufficientFunds` failure with the balance
unchanged. -/
theorem sendPayment_check_ignores_fee :
    sendPayment (some { gBalance := 201/2, usdBalance := 0, savings := 0, lastClaim := none }) 100 = .ok { gBalance := 0, usdBalance := 0, savings := 0, lastClaim := none } ∧
    sendPayment (some { gBalance := 10049/100, usdBalance := 0, savings := 0, lastClaim := none }) 100 = .ok { gBalance := -1/100, usdBalance := 0, savings := 0, lastClaim := none } := by
  constructor <;> norm_num [sendPayment, feeRate]

/-- C3: the claimed 24-hour cooldown of the daily income claim does not exist in
the code.  A first `claim-ubi` call at time 0 credits 10 and stamps
`lastClaim = 0`; a second call only one hour later (3600000 ms < 86400000 ms =
24h) succeeds again and credits another 10, leaving 20 — the code never reads
`lastClaim`. -/
theorem claimUbi_has_no_cooldown :
    claimUbi none 0 = { gBalance := 10, usdBalance := 0, savings := 0, lastClaim := some 0 } ∧
    claimUbi (some { gBalance := 10, usdBalance := 0, savings := 0, lastClaim := some 0 }) 3600000 = { gBalance := 20, usdBalance := 0, savings := 0, lastClaim := some 3600000 } ∧
    3600000 < 86400000 := by
  refine ⟨?_, ?_, by norm_num⟩ <;> norm_num [claimUbi, emptyBalance, ubiAmount]

/-- C4: votes are still accepted after execution.  `execute-proposal` on a
passing proposal (deadline still ahead) marks it executed; a subsequent `vote`
by a fresh user at time 20 < deadline is nevertheless accepted — the `vote`
case never consults `status` — and the stored tally changes, contradicting the
claim that such a vote fails with `VotingClosed` and the tally is frozen. -/
theorem castVote_accepted_after_execution :
    executeProposal execDemoState "pex" 10 = .ok (execDemoState1, execDemoExecuted) ∧
    execDemoExecuted.status = .executed ∧
    20 < execDemoExecuted.votingDeadline ∧
    castVote execDemoState1 "pex" "frank" .voteFor "" 20 = .ok (execDemoState2, execDemoVote) ∧
    List.lookup "pex" execDemoState2.proposals = some execDemoAfterVote ∧
    execDemoAfterVote.tally ≠ execDemoExecuted.tally := by decide

/-- C5: at most one successful vote per (proposalId, userId) pair.  If a
`castVote` by some user on some proposal succeeds, then any further `castVote`
by the same user on the same proposal (any choice, reason or time) fails with
`AlreadyVoted`; the vote is recorded under its key, and the stored proposal's
tally is the old tally with exactly the chosen counter incremented by one and
the other two counters unchanged. -/
theorem castVote_at_most_once (s s' : GovState) (propId userId : String)
    (c c' : VoteChoice) (r r' : String) (now now' : ℕ) (v : Vote)
    (h : castVote s propId userId c r now = .ok (s', v)) :
    castVote s' propId userId c' r' now' = .error .AlreadyVoted ∧
    List.lookup (voteKey propId userId) s'.votes = some v ∧
    ∃ p, List.lookup propId s.proposals = some p ∧
      List.lookup propId s'.proposals = some { p with tally := p.tally.bump c } ∧
      (p.tally.bump c).forCount = p.tally.forCount + (if c = .voteFor then 1 else 0) ∧
      (p.tally.bump c).againstCount = p.tally.againstCount + (if c = .voteAgainst then 1 else 0) ∧
      (p.tally.bump c).abstainCount = p.tally.abstainCount + (if c = .voteAbstain then 1 else 0) := by
  unfold castVote at h
  split at h
  · exact Except.noConfusion h
  · rename_i p hp
    split at h
    · exact Except.noConfusion h
    · split at h
      · exact Except.noConfusion h
      · rename_i hv hd
        rw [Except.ok.injEq, Prod.mk.injEq] at h
        obtain ⟨hs, hveq⟩ := h
        subst hs
        subst hveq
        refine ⟨?_, ?_, p, hp, ?_, ?_, ?_, ?_⟩
        · simp [castVote, lookup_setEntry_self]
        · exact lookup_setEntry_self ..
        · exact lookup_setEntry_self ..
        · cases c <;> simp [Tally.bump]
        · cases c <;> simp [Tally.bump]
        · cases c <;> simp [Tally.bump]

/-- Witness for C5: user `"u"` votes `for` on proposal `"p"`, which succeeds;
the theorem then yields that a second vote by `"u"` on `"p"` fails with
`AlreadyVoted` and that the stored tally has exactly `forCount` incremented. -/
theorem castVote_at_most_once_witness :
    castVote voteDemoState "p" "u" .voteFor "" 5 = .ok (voteDemoState1, voteDemoVote) ∧
    (castVote voteDemoState1 "p" "u" .voteAgainst "" 6 = .error .AlreadyVoted ∧
     List.lookup (voteKey "p" "u") voteDemoState1.votes = some voteDemoVote ∧
     ∃ p, List.lookup "p" voteDemoState.proposals = some p ∧
       List.lookup "p" voteDemoState1.proposals = some { p with tally := p.tally.bump .voteFor } ∧
       (p.tally.bump .voteFor).forCount = p.tally.forCount + (if VoteChoice.voteFor = .voteFor then 1 else 0) ∧
       (p.tally.bump .voteFor).againstCount = p.tally.againstCount + (if VoteChoice.voteFor = .voteAgainst then 1 else 0) ∧
       (p.tally.bump .voteFor).abstainCount = p.tally.abstainCount + (if VoteChoice.voteFor = .voteAbstain then 1 else 0)) :=
  ⟨by decide, castVote_at_most_once voteDemoState voteDemoState1 "p" "u" .voteFor .voteAgainst "" "" 5 6 voteDemoVote (by decide)⟩

/-- C6: `execute-proposal` fails with `ProposalNotFound` when the proposal is
absent; with a proposal present it fails with `QuorumNotMet` exactly when
`(for + against + abstain) >= quorum AND for > against` does not hold, and when
it holds it succeeds, stores the proposal with `status = executed` and
`executedAt` stamped. -/
theorem executeProposal_spec (s : GovState) (propId : String) (now : ℕ) :
    (List.lookup propId s.proposals = none →
      executeProposal s propId now = .error .ProposalNotFound) ∧
    ∀ p, List.lookup propId s.proposals = some p →
      (¬ (p.quorum ≤ p.tally.forCount + p.tally.againstCount + p.tally.abstainCount ∧
          p.tally.againstCount < p.tally.forCount) →
        executeProposal s propId now = .error .QuorumNotMet) ∧
      ((p.quorum ≤ p.tally.forCount + p.tally.againstCount + p.tally.abstainCount ∧
          p.tally.againstCount < p.tally.forCount) →
        executeProposal s propId now =
          .ok ({ s with proposals := setEntry propId { p with status := .executed, executedAt := some now } s.proposals }, { p with status := .executed, executedAt := some now }) ∧
        List.lookup propId (setEntry propId { p with status := .executed, executedAt := some now } s.proposals) = some { p with status := .executed, executedAt := some now }) := by
  refine ⟨fun hn => ?_, fun p hp => ⟨fun hfail => ?_, fun hpass => ⟨?_, lookup_setEntry_self ..⟩⟩⟩
  · simp [executeProposal, hn]
  · simp [executeProposal, hp, hfail]
  · simp [executeProposal, hp, hpass]

/-- Witness for C6, the claim's `quorum = 15` scenario: with 14 total votes,
execution fails with `QuorumNotMet`; casting a 15th `for` vote succeeds, and
execution then succeeds, storing the proposal as executed. -/
theorem executeProposal_spec_witness :
    (List.lookup "q" quorumDemoState.proposals = some quorumDemoProposal ∧
      executeProposal quorumDemoState "q" 99 = .error .QuorumNotMet) ∧
    castVote quorumDemoState "q" "u15" .voteFor "" 50 = .ok (quorumDemoState15, quorumDemoVote15) ∧
    (List.lookup "q" quorumDemoState15.proposals = some quorumDemoProposal15 ∧
      (executeProposal quorumDemoState15 "q" 99 =
        .ok ({ quorumDemoState15 with proposals := setEntry "q" { quorumDemoProposal15 with status := .executed, executedAt := some 99 } quorumDemoState15.proposals }, { quorumDemoProposal15 with status := .executed, executedAt := some 99 }) ∧
      List.lookup "q" (setEntry "q" { quorumDemoProposal15 with status := .executed, executedAt := some 99 } quorumDemoState15.proposals) = some { quorumDemoProposal15 with status := .executed, executedAt := some 99 })) :=
  ⟨⟨by decide, ((executeProposal_spec quorumDemoState "q" 99).2 quorumDemoProposal (by decide)).1 (by decide)⟩,
   by decide,
   ⟨by decide, ((executeProposal_spec quorumDemoState15 "q" 99).2 quorumDemoProposal15 (by decide)).2 (by decide)⟩⟩

/-- C7: `deposit-savings` fails with `InsufficientFunds` exactly when the
amount exceeds the spendable balance; otherwise it debits the spendable balance
and credits the savings principal by the same amount (so their sum is
conserved), and `get-balance` afterwards reports
`projectedAnnualReturn = savingsPrincipal * 0.05`. -/
theorem depositToSavings_spec (a : UserBalance) (amount : ℚ) :
    (a.gBalance < amount → depositSavings (some a) amount = .error .InsufficientFunds) ∧
    (amount ≤ a.gBalance →
      depositSavings (some a) amount =
        .ok { a with gBalance := a.gBalance - amount, savings := a.savings + amount } ∧
      (a.gBalance - amount) + (a.savings + amount) = a.gBalance + a.savings ∧
      (getBalance (some { a with gBalance := a.gBalance - amount, savings := a.savings + amount })).projectedAnnualReturn
        = (a.savings + amount) * (5 / 100)) := by
  constructor
  · intro h; simp [depositSavings, h]
  · intro h
    refine ⟨?_, by ring, ?_⟩
    · simp [depositSavings, not_lt.mpr h]
    · simp [getBalance]

/-- Witness for C7, the claim's concrete case: depositing 10 with a spendable
balance of exactly 10 succeeds, moving the full balance into savings. -/
theorem depositToSavings_spec_witness :
    10 ≤ tenBalance.gBalance ∧
    (depositSavings (some tenBalance) 10 =
        .ok { tenBalance with gBalance := tenBalance.gBalance - 10, savings := tenBalance.savings + 10 } ∧
      (tenBalance.gBalance - 10) + (tenBalance.savings + 10) = tenBalance.gBalance + tenBalance.savings ∧
      (getBalance (some { tenBalance with gBalance := tenBalance.gBalance - 10, savings := tenBalance.savings + 10 })).projectedAnnualReturn
        = (tenBalance.savings + 10) * (5 / 100)) :=
  ⟨by norm_num [tenBalance], (depositToSavings_spec tenBalance 10).2 (by norm_num [tenBalance])⟩

/-- Iterating `contribute-to-goal` accumulates: after the contributions in
`amounts`, the stored goal's `currentAmount` has grown by their sum and its
`contributorCount` by their number. -/
theorem contributeMany_lookup (gid : String) (amounts : List ℚ) :
    ∀ (goals : List (String × Goal)) (g : Goal), List.lookup gid goals = some g →
      ∃ gs', contributeMany goals gid amounts = .ok gs' ∧
        List.lookup gid gs' = some { g with currentAmount := g.currentAmount + amounts.sum, contributors := g.contributors + amounts.length } := by
  induction amounts with
  | nil =>
    intro goals g hg
    exact ⟨goals, rfl, by simpa using hg⟩
  | cons a rest ih =>
    intro goals g hg
    obtain ⟨gs', h1, h2⟩ := ih (setEntry gid { g with currentAmount := g.currentAmount + a, contributors := g.contributors + 1 } goals) _ (lookup_setEntry_self ..)
    refine ⟨gs', ?_, ?_⟩
    · show contributeMany goals gid (a :: rest) = .ok gs'
      simpa [contributeMany, contributeToGoal, hg] using h1
    · rw [h2]
      rw [Option.some.injEq, Goal.mk.injEq, List.sum_cons, List.length_cons]
      dsimp only
      exact ⟨rfl, by ring, by omega⟩

/-- C8: `contribute-to-goal` on an existing goal is monotone.  Each successful
contribution adds exactly the contributed amount to `currentAmount` and one to
`contributorCount`, never decrementing either for a non-negative amount, and
answers `percentageFunded = currentAmount / targetAmount * 100` on the updated
goal, unclamped; after the N contributions in `amounts` the stored goal carries
the initial `currentAmount` plus the sum of all amounts and the initial
`contributorCount` plus N. -/
theorem contributeToGoal_monotone (goals : List (String × Goal)) (gid : String) (g : Goal)
    (amounts : List ℚ) (hg : List.lookup gid goals = some g) :
    (∀ a gs' g' pct, contributeToGoal goals gid a = .ok (gs', g', pct) →
      g'.currentAmount = g.currentAmount + a ∧
      g'.contributors = g.contributors + 1 ∧
      g'.targetAmount = g.targetAmount ∧
      pct = g'.currentAmount / g'.targetAmount * 100 ∧
      (0 ≤ a → g.currentAmount ≤ g'.currentAmount)) ∧
    (∃ gs', contributeMany goals gid amounts = .ok gs' ∧
      List.lookup gid gs' = some { g with currentAmount := g.currentAmount + amounts.sum, contributors := g.contributors + amounts.length }) := by
  refine ⟨?_, contributeMany_lookup gid amounts goals g hg⟩
  intro a gs' g' pct h
  rw [contributeToGoal, hg] at h
  rw [Except.ok.injEq, Prod.mk.injEq, Prod.mk.injEq] at h
  obtain ⟨-, hg', hpct⟩ := h
  subst hg'
  refine ⟨rfl, rfl, rfl, hpct.symm, fun ha => by simp [ha]⟩

/-- Witness for C8: two contributions (10000 then 5000) to the seeded
`'solar-project'` goal; the theorem yields the per-call increments and that
the stored goal ends at `37500 + 15000` with `45 + 2` contributors. -/
theorem contributeToGoal_monotone_witness :
    List.lookup "solar-project" communityGoalsInit = some solarGoal ∧
    ((∀ a gs' g' pct, contributeToGoal communityGoalsInit "solar-project" a = .ok (gs', g', pct) →
      g'.currentAmount = solarGoal.currentAmount + a ∧
      g'.contributors = solarGoal.contributors + 1 ∧
      g'.targetAmount = solarGoal.targetAmount ∧
      pct = g'.currentAmount / g'.targetAmount * 100 ∧
      (0 ≤ a → solarGoal.currentAmount ≤ g'.currentAmount)) ∧
    (∃ gs', contributeMany communityGoalsInit "solar-project" [10000, 5000] = .ok gs' ∧
      List.lookup "solar-project" gs' = some { solarGoal with currentAmount := solarGoal.currentAmount + [(10000:ℚ), 5000].sum, contributors := solarGoal.contributors + [(10000:ℚ), 5000].length })) :=
  ⟨by simp [communityGoalsInit, List.lookup],
   contributeToGoal_monotone communityGoalsInit "solar-project" solarGoal [10000, 5000] (by simp [communityGoalsInit, List.lookup])⟩

/-- C9 counterexample: one failing collaborator aborts the whole snapshot.
When the tor collaborator's call rejects while every other collaborator call
fulfils, `getDashboardData` does not return a snapshot with the remaining
sections — the rejection propagates through `Promise.all` and the whole call
fails. -/
theorem getDashboardData_one_rejection_aborts :
    getDashboardData (.ok []) (.ok []) (.ok nillionDefaultStats) (.error .rejected) (.ok []) (.ok []) (.ok []) (.ok []) (.ok []) = .error .rejected := rfl

/-- C9 amended: the aggregator itself has no partial-result handling, but every
collaborator statistics method catches its own underlying failure and fulfils
with its hard-coded default summary (`statsWithCatch`), so whatever underlying
calls fail, the composed snapshot always succeeds and carries each
collaborator's (real or default) summary. -/
theorem getDashboardData_ok_when_collaborators_catch
    (uh ug un ut ue ul ub ua unum : Except JsError Stats) (dh dg dn dt de dl db da dnum : Stats) :
    getDashboardData (.ok (statsWithCatch uh dh)) (.ok (statsWithCatch ug dg)) (.ok (statsWithCatch un dn)) (.ok (statsWithCatch ut dt)) (.ok (statsWithCatch ue de)) (.ok (statsWithCatch ul dl)) (.ok (statsWithCatch ub db)) (.ok (statsWithCatch ua da)) (.ok (statsWithCatch unum dnum))
      = .ok { identityHuman := statsWithCatch uh dh, identityLogos := statsWithCatch ul dl, identityBento := statsWithCatch ub db, financeGoodDollar := statsWithCatch ug dg, privacyNillion := statsWithCatch un dn, privacyTor := statsWithCatch ut dt, infraEdgeCity := statsWithCatch ue de, infraInternetArchive := statsWithCatch ua da, reputationNumbers := statsWithCatch unum dnum } := rfl

/-- C10: for every governance state, the `'get-governance-stats'` read returns
the 500 `'Internal server error'` failure response and never the statistics
body: its `participationRate` field reads the `userVotes` binding declared in
the `'get-user-votes'` case before that declaration has executed, which throws
and is caught by the surrounding handler. -/
theorem getGovernanceStats_always_internal_error (s : GovState) :
    getGovernanceStats s = .failure 500 "Internal server error" := rfl

end RealFi
